import Mathlib

/-!
Verification of the `firstrender` students REST service (Go, two source
variants: `main.go` and `part_000`) against its natural-language spec.

The Go program is shallowly embedded: JSON values are an inductive type,
the two Gin handlers become pure functions from the request data, the
database oracle outcomes (find / cursor / insert results) and the stored
collection (a list of documents), and the startup sequence of each variant
becomes a function from the process environment to a startup result.
Library behaviour the code relies on (encoding/json field binding,
mongo-driver `Cursor.All` on a nil slice, `json.Marshal` of a nil slice)
is modelled faithfully from those libraries' documented semantics, since
the handlers' observable behaviour depends on it.
-/

namespace FirstRender

/-- JSON values. Go's `encoding/json` distinguishes numeric literals that
parse as integers from those that do not (decoding `3.5` into an `int`
field fails), so integer literals are `int` and any non-integer numeric
literal is `numNonInt` carrying its source text. -/
inductive Json where
  | null
  | bool (b : Bool)
  | int (n : Int)
  | numNonInt (lit : String)
  | str (s : String)
  | arr (elems : List Json)
  | obj (fields : List (String × Json))

/-- A stored document: an open string-keyed mapping (Go `bson.M`,
modelled with field order retained). -/
abbrev Doc : Type := List (String × Json)

/-- The keys of a document, in order. -/
def docKeys (d : Doc) : List String := d.map Prod.fst

/-- The `Student` struct of both variants: `Name string` with json/bson
tag `name`, `Age int` with json/bson tag `age`. Go `int` is modelled as
`Int` (no handler arithmetic can overflow: the value is only stored). -/
structure Student where
  name : String
  age : Int

/-- Last binding of `key` in a JSON object's field list: `encoding/json`
lets a later duplicate key overwrite an earlier one. -/
def lookupLast (fields : List (String × Json)) (key : String) : Option Json :=
  fields.foldl (fun acc f => if f.1 = key then some f.2 else acc) none

/-- Decoding the `name` field as Go does for a `string` struct field: an
absent field or JSON `null` leaves the zero value `""` with no error; a
string is taken verbatim; any other value is a type error. -/
def decodeName : Option Json → Except String String
  | none => .ok ""
  | some .null => .ok ""
  | some (.str s) => .ok s
  | some _ => .error "json: cannot unmarshal value into Go struct field Student.name of type string"

/-- Decoding the `age` field as Go does for an `int` struct field: an
absent field or JSON `null` leaves the zero value `0` with no error; an
integer numeric literal is taken verbatim; any other value (including a
non-integer numeric literal) is a type error. -/
def decodeAge : Option Json → Except String Int
  | none => .ok 0
  | some .null => .ok 0
  | some (.int n) => .ok n
  | some _ => .error "json: cannot unmarshal value into Go struct field Student.age of type int"

/-- Result of `c.ShouldBindJSON(&newStudent)`. -/
inductive BindResult where
  | ok (s : Student)
  | err (msg : String)

/-- Binding one parsed JSON value into `Student`, following
`encoding/json`: `null` leaves the zero struct with no error; an object
binds the two tagged fields (unknown keys are ignored, absent keys keep
zero values); any other top-level value is a type error. The struct has no
`binding:"required"` tags, so no presence check is performed. When both
fields are ill-typed only one message is reported; which of the two
messages is not observable by any claim. -/
def bindStudentJson : Json → BindResult
  | .null => .ok ⟨"", 0⟩
  | .obj fields =>
      match decodeName (lookupLast fields "name"), decodeAge (lookupLast fields "age") with
      | .error e, _ => .err e
      | .ok _, .error e => .err e
      | .ok n, .ok a => .ok ⟨n, a⟩
  | _ => .err "json: cannot unmarshal value into Go value of type main.Student"

/-- The whole binding step. `none` is a request body whose bytes are not
well-formed JSON (or an empty body), which makes the decoder fail before
any value is produced. -/
def decodeStudent : Option Json → BindResult
  | none => .err "invalid JSON body"
  | some j => bindStudentJson j

/-- One JSON response written by `c.JSON(status, body)`. -/
structure Response where
  status : Nat
  body : Json

/-- Models mongo-driver `Cursor.All` filling `var results []bson.M`,
whose initial value is the nil slice: with zero documents the loop never
appends and the slice stays nil (`none`); otherwise it holds every
document of the collection in order. -/
def cursorAll (docs : List Doc) : Option (List Doc) :=
  match docs with
  | [] => none
  | _ => some docs

/-- Models `encoding/json` marshalling of the possibly-nil `[]bson.M`
(as performed by `c.JSON`): a nil slice marshals to JSON `null`, a
non-nil slice to the array of its documents, each passed through
verbatim as an object. -/
def marshalResults : Option (List Doc) → Json
  | none => .null
  | some ds => .arr (ds.map Json.obj)

/-- The `GET /students` handler (identical in both variants). Inputs
beyond the stored collection are the database oracle outcomes: whether
`collection.Find` returns an error, and whether `cursor.All` returns an
error. The result is the list of JSON writes the handler performs, in
order; each error branch writes and then `return`s. -/
def getStudents (docs : List Doc) (findFails allFails : Bool) : List Response :=
  if findFails then
    [⟨500, .obj [("error", .str "Failed to fetch documents")]⟩]
  else if allFails then
    [⟨500, .obj [("error", .str "Failed to decode documents")]⟩]
  else
    [⟨200, marshalResults (cursorAll docs)⟩]

/-- The `POST /students` handler (identical in both variants). `rawBody`
is the parsed request body (`none` for malformed JSON); `insertResult` is
the database oracle outcome of `collection.InsertOne` (`some id` with the
database-assigned `_id` on success, `none` on error). Returns the list of
JSON writes and the collection after the request. On success the driver
marshals the bound struct through its bson tags, the assigned `_id`
prepended, so the stored document has exactly the fields `_id`, `name`,
`age`. -/
def postStudents (rawBody : Option Json) (insertResult : Option Json) (docs : List Doc) :
    List Response × List Doc :=
  match decodeStudent rawBody with
  | .err msg => ([⟨400, .obj [("error", .str msg)]⟩], docs)
  | .ok st =>
      match insertResult with
      | none => ([⟨500, .obj [("error", .str "Failed to insert document")]⟩], docs)
      | some idv =>
          ([⟨201, .obj [("message", .str "Student added successfully!"), ("insertedID", idv)]⟩],
           docs ++ [([("_id", idv), ("name", .str st.name), ("age", .int st.age)] : Doc)])

/-- The process environment and external outcomes that the startup
sequence branches on. `port` and `mongoUri` are the strings returned by
`os.Getenv` (the empty string when the variable is unset, as in Go). -/
structure Env where
  dotenvLoadError : Bool
  port : String
  mongoUri : String
  connectError : Bool
  pingError : Bool

/-- Outcome of running `main` up to its final statement: `fatal msg` is a
`log.Fatal` call (the process exits before any listener is opened) and
`listen addr` is the `r.Run(addr)` call that opens the HTTP listener. -/
inductive StartupResult where
  | fatal (msg : String)
  | listen (addr : String)

/-- Whether a startup outcome opens the HTTP listener. -/
def StartupResult.opensListener : StartupResult → Bool
  | .fatal _ => false
  | .listen _ => true

/-- Timeout, in seconds, of the startup reachability ping context
(`context.WithTimeout(..., 15*time.Second)`), identical in both
variants. -/
def pingTimeoutSeconds : Nat := 15

/-- Startup sequence of the `main.go` variant: a `godotenv.Load` error is
`log.Fatal`; then the `MONGODB_URI` emptiness check, `mongo.Connect`, and
the bounded ping, each fatal on failure; finally `r.Run(":8080")` with a
hard-coded port. -/
def startupMain (e : Env) : StartupResult :=
  if e.dotenvLoadError then .fatal "Error loading .env file"
  else if e.mongoUri = "" then .fatal "You must set MONGODB_URI environment variable"
  else if e.connectError then .fatal "MongoDB connection error"
  else if e.pingError then .fatal "MongoDB ping failed"
  else .listen ":8080"

/-- Startup sequence of the `part_000` variant: a `godotenv.Load` error
is only `log.Println` (startup continues); the same fatal checks follow;
finally `r.Run(":" + port)` where `port` is `PORT` or `"8080"` when that
variable is empty/unset. -/
def startupPart000 (e : Env) : StartupResult :=
  if e.mongoUri = "" then .fatal "You must set MONGODB_URI environment variable"
  else if e.connectError then .fatal "MongoDB connection error"
  else if e.pingError then .fatal "MongoDB ping failed"
  else .listen (":" ++ (if e.port = "" then "8080" else e.port))

/-- HTTP methods named by the CORS configuration and the router. -/
inductive Method where
  | GET
  | POST
  | PUT
  | DELETE
deriving DecidableEq

/-- The `cors.Config` literal passed to `cors.New`. -/
structure CorsConfig where
  allowOrigins : List String
  allowMethods : List String
  allowHeaders : List String
  allowCredentials : Bool

/-- CORS configuration of the `main.go` variant; it is a literal
installed once by `r.Use` before `r.Run`, hence static for the process
lifetime. -/
def corsMain : CorsConfig :=
  { allowOrigins := ["http://localhost:5173"]
    allowMethods := ["GET", "POST", "PUT", "DELETE"]
    allowHeaders := ["Origin", "Content-Type"]
    allowCredentials := true }

/-- CORS configuration of the `part_000` variant. -/
def corsPart000 : CorsConfig :=
  { allowOrigins := ["http://localhost:5173", "https://your-render-service.onrender.com"]
    allowMethods := ["GET", "POST", "PUT", "DELETE"]
    allowHeaders := ["Origin", "Content-Type"]
    allowCredentials := true }

/-- The routes registered on the router, identical in both variants:
`r.GET("/students", ...)` and `r.POST("/students", ...)` and nothing
else. -/
def registeredRoutes : List (Method × String) :=
  [(Method.GET, "/students"), (Method.POST, "/students")]

/-- Collection states reachable through this system: the empty collection
is reachable, and any state is closed under one `POST /students` request
(with any body and any insert outcome). `GET /students` performs no write
(its only database calls are `Find` and cursor reads), so it contributes
no transition. -/
inductive Reachable : List Doc → Prop where
  | init : Reachable []
  | post (body : Option Json) (o : Option Json) {s : List Doc} :
      Reachable s → Reachable (postStudents body o s).2

/-! ## Shared helper lemmas -/

/-- The POST handler either leaves the collection unchanged (bind failure
or insert failure) or appends exactly one document with the fields
`_id`, `name`, `age`. -/
theorem postStudents_state (body o : Option Json) (docs : List Doc) :
    (postStudents body o docs).2 = docs ∨
    ∃ st idv, decodeStudent body = .ok st ∧ o = some idv ∧
      (postStudents body o docs).2 =
        docs ++ [([("_id", idv), ("name", .str st.name), ("age", .int st.age)] : Doc)] := by
  cases hb : decodeStudent body with
  | err m => left; simp [postStudents, hb]
  | ok st =>
    cases o with
    | none => left; simp [postStudents, hb]
    | some idv => right; exact ⟨st, idv, rfl, rfl, by simp [postStudents, hb]⟩

/-! ## Claims -/

/-- C1, counterexample. The claim says a POST body missing `name` yields
400 and leaves the document count unchanged; on the code, the body
`{"age": 20}` binds successfully (no `binding:"required"` tags), so with
a succeeding insert the handler answers 201 and the collection grows from
0 to 1 document. -/
theorem post_missing_name_not_rejected :
    ¬ (((postStudents (some (Json.obj [("age", Json.int 20)])) (some (Json.str "65f0")) []).1.map
          Response.status = [400]) ∧
       ((postStudents (some (Json.obj [("age", Json.int 20)])) (some (Json.str "65f0")) []).2.length
          = 0)) := by
  intro h
  exact absurd h.1 (by decide)

/-- C1, amended: a POST whose `age` is a non-integer (or whose body
otherwise fails binding, e.g. malformed JSON) yields 400 and inserts
nothing; but a body merely missing `name` or `age` binds successfully
with the zero values `""` / `0` and proceeds to insertion. -/
theorem post_bind_behavior (body : Option Json) (msg : String) (o : Option Json) (docs : List Doc)
    (h : decodeStudent body = .err msg) :
    (postStudents body o docs).1.map Response.status = [400] ∧
    (postStudents body o docs).2 = docs ∧
    decodeStudent (some (Json.obj [("name", Json.str "Ada"), ("age", Json.numNonInt "19.5")]))
      = .err "json: cannot unmarshal value into Go struct field Student.age of type int" ∧
    (∃ s, decodeStudent (some (Json.obj [("age", Json.int 20)])) = .ok s ∧
      s.name = "" ∧ s.age = 20) ∧
    (∃ s, decodeStudent (some (Json.obj [("name", Json.str "Ada")])) = .ok s ∧
      s.name = "Ada" ∧ s.age = 0) := by
  refine ⟨?_, ?_, rfl, ⟨⟨"", 20⟩, rfl, rfl, rfl⟩, ⟨⟨"Ada", 0⟩, rfl, rfl, rfl⟩⟩ <;>
    simp [postStudents, h]

/-- C1, witness for the amended theorem at a concrete bind failure
(`age` bound to a string). -/
theorem post_bind_behavior_witness :
    (postStudents (some (Json.obj [("age", Json.str "x")])) none []).1.map Response.status
      = [400] :=
  (post_bind_behavior (some (Json.obj [("age", Json.str "x")]))
    "json: cannot unmarshal value into Go struct field Student.age of type int" none [] rfl).1

/-- C2, counterexample. The claim says GET on an empty collection (both
database steps succeeding) answers 200 with an empty JSON array; on the
code the nil `[]bson.M` slice marshals to JSON `null`, not `[]`. -/
theorem list_empty_not_array :
    ¬ (getStudents [] false false = [⟨200, Json.arr []⟩]) := by
  intro h
  have h0 : ([⟨200, Json.null⟩] : List Response) = [⟨200, Json.arr []⟩] := h
  injection h0 with h1 _
  injection h1 with _ h2
  exact Json.noConfusion h2

/-- C2, amended: GET on an empty collection with both database steps
succeeding answers 200 with body JSON `null` (the nil result slice
serializes to `null` rather than to an empty array). -/
theorem list_empty_returns_null :
    getStudents [] false false = [⟨200, Json.null⟩] := rfl

/-- C3, counterexample. The claim says a `.env` load failure is logged
but non-fatal; in the `main.go` variant `godotenv.Load` failure is
`log.Fatal`, so with every other startup step healthy the process still
terminates and never reaches configuration resolution or the database
connection. -/
theorem dotenv_failure_fatal_in_main :
    startupMain ⟨true, "", "mongodb://db", false, false⟩ = .fatal "Error loading .env file" ∧
    (startupMain ⟨true, "", "mongodb://db", false, false⟩).opensListener = false :=
  ⟨rfl, rfl⟩

/-- C3, amended: in the `part_000` variant a `.env` load failure is
non-fatal — startup behaves exactly as it would without the failure,
continuing to configuration resolution and the database connection —
while in the `main.go` variant the same failure is fatal
(`log.Fatal("Error loading .env file")`). -/
theorem dotenv_nonfatal_part000 (e : Env) (h : e.dotenvLoadError = true) :
    startupPart000 e = startupPart000 { e with dotenvLoadError := false } ∧
    startupMain e = .fatal "Error loading .env file" := by
  exact ⟨rfl, by simp [startupMain, h]⟩

/-- C3, witness for the amended theorem at a concrete environment with a
`.env` load failure. -/
theorem dotenv_nonfatal_part000_witness :
    startupPart000 ⟨true, "", "mongodb://db", false, false⟩ =
      startupPart000 ⟨false, "", "mongodb://db", false, false⟩ :=
  (dotenv_nonfatal_part000 ⟨true, "", "mongodb://db", false, false⟩ rfl).1

/-- C4, counterexample. The claim says the listener binds to the port
given by `PORT`; the `main.go` variant calls `r.Run(":8080")`
unconditionally, so with `PORT=3000` it still listens on `:8080`. -/
theorem main_ignores_port :
    startupMain ⟨false, "3000", "mongodb://db", false, false⟩ = .listen ":8080" ∧
    (":8080" : String) ≠ ":3000" :=
  ⟨rfl, by decide⟩

/-- C4, amended: the `part_000` variant binds to the port given by
`PORT`, defaulting to `8080` when `PORT` is unset/empty; the `main.go`
variant always binds `:8080`, ignoring `PORT`. -/
theorem listen_port_resolution (e : Env)
    (h : e.mongoUri ≠ "" ∧ e.connectError = false ∧ e.pingError = false) :
    (e.port = "" → startupPart000 e = .listen ":8080") ∧
    (e.port ≠ "" → startupPart000 e = .listen (":" ++ e.port)) ∧
    (e.dotenvLoadError = false → startupMain e = .listen ":8080") := by
  obtain ⟨h1, h2, h3⟩ := h
  refine ⟨fun hp => ?_, fun hp => ?_, fun hd => ?_⟩
  · simp [startupPart000, h1, h2, h3, hp]
  · simp [startupPart000, h1, h2, h3, hp]
  · simp [startupMain, h1, h2, h3, hd]

/-- C4, witness for the amended theorem: with `PORT=3000` and a healthy
startup, `part_000` listens on `:3000`. -/
theorem listen_port_resolution_witness :
    startupPart000 ⟨false, "3000", "mongodb://db", false, false⟩ = .listen ":3000" :=
  (listen_port_resolution ⟨false, "3000", "mongodb://db", false, false⟩
    ⟨by decide, rfl, rfl⟩).2.1 (by decide)

/-- C5: in both variants, when `MONGODB_URI` is absent (empty), or the
connection fails, or the 15-second bounded ping fails, startup ends in a
`log.Fatal` and never opens the HTTP listener, so no HTTP request is
ever accepted. -/
theorem startup_failures_never_listen (e : Env)
    (h : e.mongoUri = "" ∨ e.connectError = true ∨ e.pingError = true) :
    (startupMain e).opensListener = false ∧
    (startupPart000 e).opensListener = false ∧
    pingTimeoutSeconds = 15 := by
  have hm : (startupMain e).opensListener = false := by
    unfold startupMain
    rcases h with h | h | h <;> (repeat' split) <;> simp_all [StartupResult.opensListener]
  have hq : (startupPart000 e).opensListener = false := by
    unfold startupPart000
    rcases h with h | h | h <;> (repeat' split) <;> simp_all [StartupResult.opensListener]
  exact ⟨hm, hq, rfl⟩

/-- C5, witness at a concrete environment with `MONGODB_URI` unset. -/
theorem startup_failures_never_listen_witness :
    (startupMain ⟨false, "", "", false, false⟩).opensListener = false :=
  (startup_failures_never_listen ⟨false, "", "", false, false⟩ (Or.inl rfl)).1

/-- C6: for every POST whose body binds successfully, a succeeding
insert answers 201 with the exact confirmation object carrying the
database-assigned id, and a failing insert answers 500 with the exact
generic error object. -/
theorem post_insert_responses (body : Option Json) (st : Student) (idv : Json) (docs : List Doc)
    (h : decodeStudent body = .ok st) :
    (postStudents body (some idv) docs).1 =
      [⟨201, Json.obj [("message", Json.str "Student added successfully!"),
                       ("insertedID", idv)]⟩] ∧
    (postStudents body none docs).1 =
      [⟨500, Json.obj [("error", Json.str "Failed to insert document")]⟩] := by
  constructor <;> simp [postStudents, h]

/-- C6, witness at the concrete body `{"name":"Ada","age":30}`. -/
theorem post_insert_responses_witness :
    (postStudents (some (Json.obj [("name", Json.str "Ada"), ("age", Json.int 30)]))
        (some (Json.str "65f0a1")) []).1 =
      [⟨201, Json.obj [("message", Json.str "Student added successfully!"),
                       ("insertedID", Json.str "65f0a1")]⟩] :=
  (post_insert_responses (some (Json.obj [("name", Json.str "Ada"), ("age", Json.int 30)]))
    ⟨"Ada", 30⟩ (Json.str "65f0a1") [] rfl).1

/-- C7, counterexample. The claim says every successful GET answers 200
with the JSON array of all documents; on the empty collection the body
is JSON `null`, not the (empty) array of its documents. -/
theorem list_success_not_always_array :
    ¬ (getStudents [] false false = [⟨200, Json.arr (([] : List Doc).map Json.obj)⟩]) := by
  intro h
  have h0 : ([⟨200, Json.null⟩] : List Response) = [⟨200, Json.arr []⟩] := h
  injection h0 with h1 _
  injection h1 with _ h2
  exact Json.noConfusion h2

/-- C7, amended: a failing find answers 500 with the generic fetch error
whatever the other outcomes; a failing materialization answers 500 with
the generic decode error; a successful GET on a nonempty collection
answers 200 with the JSON array of all documents passed through
verbatim, while on the empty collection the 200 body is JSON `null`. -/
theorem list_responses (docs : List Doc) :
    (∀ b, getStudents docs true b =
      [⟨500, Json.obj [("error", Json.str "Failed to fetch documents")]⟩]) ∧
    getStudents docs false true =
      [⟨500, Json.obj [("error", Json.str "Failed to decode documents")]⟩] ∧
    (docs ≠ [] → getStudents docs false false = [⟨200, Json.arr (docs.map Json.obj)⟩]) ∧
    getStudents [] false false = [⟨200, Json.null⟩] := by
  refine ⟨fun b => rfl, rfl, fun hne => ?_, rfl⟩
  cases docs with
  | nil => exact absurd rfl hne
  | cons d ds => rfl

/-- C7, witness on a concrete one-document collection. -/
theorem list_responses_witness :
    getStudents [[(("_id" : String), Json.str "i")]] false false =
      [⟨200, Json.arr [Json.obj [("_id", Json.str "i")]]⟩] :=
  (list_responses [[(("_id" : String), Json.str "i")]]).2.2.1 (by simp)

/-- C8: in every collection state reachable through this system's
operations (starting empty, with `POST /students` the only write and
`GET /students` writing nothing), every stored document has exactly the
fields `_id`, `name`, `age`: the create handler inserts only the bound
two-field struct plus the database-assigned identifier, so extra
client-supplied fields never reach the collection. -/
theorem stored_docs_have_exact_fields (s : List Doc) (hs : Reachable s) :
    ∀ d ∈ s, docKeys d = ["_id", "name", "age"] := by
  induction hs with
  | init => intro d hd; exact absurd hd (List.not_mem_nil d)
  | post body o hr ih =>
    intro d hd
    rcases postStudents_state body o _ with h | ⟨st, idv, _, _, h⟩
    · rw [h] at hd; exact ih d hd
    · rw [h] at hd
      rcases List.mem_append.1 hd with hd | hd
      · exact ih d hd
      · rw [List.mem_singleton.1 hd]; rfl

/-- C8, witness: the state reached by one successful POST of
`{"name":"Ada","age":30}` contains only a document whose keys are
exactly `_id`, `name`, `age`. -/
theorem stored_docs_have_exact_fields_witness :
    docKeys [(("_id" : String), Json.str "i"), ("name", Json.str "Ada"), ("age", Json.int 30)]
      = ["_id", "name", "age"] :=
  stored_docs_have_exact_fields
    (postStudents (some (Json.obj [("name", Json.str "Ada"), ("age", Json.int 30)]))
      (some (Json.str "i")) []).2
    (Reachable.post _ _ Reachable.init)
    [(("_id" : String), Json.str "i"), ("name", Json.str "Ada"), ("age", Json.int 30)]
    (List.mem_singleton.2 rfl)

/-- C9: the cross-origin policy of each variant is a single literal
configuration installed once before the listener opens: a fixed explicit
origin allow-list, methods exactly GET, POST, PUT, DELETE, headers
exactly Origin and Content-Type, credentials allowed; and the router
registers no PUT or DELETE handler on any path (only GET and POST on
`/students`). -/
theorem cors_static_config :
    corsMain.allowMethods = ["GET", "POST", "PUT", "DELETE"] ∧
    corsMain.allowHeaders = ["Origin", "Content-Type"] ∧
    corsMain.allowCredentials = true ∧
    corsMain.allowOrigins = ["http://localhost:5173"] ∧
    corsPart000.allowMethods = ["GET", "POST", "PUT", "DELETE"] ∧
    corsPart000.allowHeaders = ["Origin", "Content-Type"] ∧
    corsPart000.allowCredentials = true ∧
    corsPart000.allowOrigins =
      ["http://localhost:5173", "https://your-render-service.onrender.com"] ∧
    registeredRoutes.all
      (fun r => !(r.1 == Method.PUT) && !(r.1 == Method.DELETE)) = true :=
  ⟨rfl, rfl, rfl, rfl, rfl, rfl, rfl, rfl, rfl⟩

/-- C10: every invocation of either handler performs exactly one JSON
write; moreover a bind failure makes the POST handler's outcome
independent of the insert outcome (the database call is never reached),
and a find failure makes the GET handler's outcome independent of the
collection contents and the materialization outcome. -/
theorem handlers_write_exactly_once (docs docs2 : List Doc) (ff af af2 : Bool)
    (bodyAny bodyErr o o2 : Option Json) (msg : String)
    (h : decodeStudent bodyErr = .err msg) :
    (getStudents docs ff af).length = 1 ∧
    ((postStudents bodyAny o docs).1).length = 1 ∧
    postStudents bodyErr o docs = postStudents bodyErr o2 docs ∧
    getStudents docs true af = getStudents docs2 true af2 := by
  refine ⟨?_, ?_, ?_, rfl⟩
  · unfold getStudents; (repeat' split) <;> rfl
  · cases hb : decodeStudent bodyAny with
    | err m => simp [postStudents, hb]
    | ok st => cases o with
      | none => simp [postStudents, hb]
      | some idv => simp [postStudents, hb]
  · simp [postStudents, h]

/-- C10, witness at a concrete request set: an empty collection, a
healthy GET, any POST body, and a malformed (`none`) POST body. -/
theorem handlers_write_exactly_once_witness :
    (getStudents [] false false).length = 1 :=
  (handlers_write_exactly_once [] [] false false false (some Json.null) none none none
    "invalid JSON body" rfl).1

end FirstRender
